import Mathlib

/-!
Shallow embedding of `src/evox/operators/gaussian_process/classification.py`
and the scratch snippet of `tests/test.py`.

The GP classification wrapper delegates all computation to the external
gpjax library.  We embed the wrapper faithfully: the external library is an
oracle (a structure of functions, fallible calls returning `Except`), the
instance attributes form a state record, and each method call returns the
trace of external calls it made, the resulting state, and its result.
-/

namespace Evox

/-- numpy/jax dtypes that matter to the wrapper (`astype(jnp.float32)`). -/
inductive DType
  | float32
  | float64
  | int32
  | otherDType
deriving DecidableEq

/-- A jax array, abstracted: an opaque payload identifier, a dtype and a
shape.  The wrapper never looks inside arrays. -/
structure Arr where
  data : Nat
  dtype : DType
  shape : List Nat
deriving DecidableEq

/-- `a.astype(jnp.float32)`: same payload and shape, dtype forced to float32. -/
def Arr.astypeF32 (a : Arr) : Arr := { a with dtype := DType.float32 }

/-- Opaque gpjax kernel object (e.g. `RBF()`). -/
structure Kernel where
  id : Nat
deriving DecidableEq

/-- Opaque gpjax mean-function object (e.g. `Zero()`). -/
structure MeanFun where
  id : Nat
deriving DecidableEq

/-- Opaque gpjax likelihood object (supplied by the caller). -/
structure Likelihood where
  id : Nat
deriving DecidableEq

/-- Opaque gpjax objective object (e.g. `LogPosteriorDensity(negative=True)`). -/
structure Objective where
  id : Nat
deriving DecidableEq

/-- Opaque gpjax prior object, built by `gpx.gps.Prior(...)`. -/
structure Prior where
  id : Nat
deriving DecidableEq

/-- Opaque gpjax posterior object, built by `prior * likelihood`. -/
structure Posterior where
  id : Nat
deriving DecidableEq

/-- Opaque jax PRNG key (`jr.PRNGKey(123)`). -/
structure Key where
  seed : Nat
deriving DecidableEq

/-- Opaque optax optimizer object (`ox.adam`, `ox.sgd(0.001)`, ...). -/
structure Optimizer where
  id : Nat
deriving DecidableEq

/-- Opaque optimization history returned by `gpx.fit`. -/
structure History where
  id : Nat
deriving DecidableEq

/-- Opaque scalar value returned by evaluating the objective. -/
structure ObjVal where
  id : Nat
deriving DecidableEq

/-- Opaque predictive distribution; it carries the shape of its event space
(the only aspect the spec's shape claim can see). -/
structure Distribution where
  tag : Nat
  shape : List Nat
deriving DecidableEq

/-- `gpx.Dataset(X=..., y=...)`: a plain record of the two arrays. -/
structure Dataset where
  X : Arr
  y : Arr
deriving DecidableEq

/-- The external gpjax library as an oracle.  Calls made inside `fit` and
`predict` may raise (`Except E`); the construction-time calls are modelled
as pure since no claim concerns their failure. -/
structure GpxLib (E : Type) where
  priorOf : MeanFun → Kernel → Prior
  posteriorOf : Prior → Option Likelihood → Posterior
  objectiveVal : Objective → Posterior → Dataset → Except E ObjVal
  gpxFit : Posterior → Objective → Dataset → Optimizer → Nat → Key → Bool →
    Except E (Posterior × History)
  predictLatent : Posterior → Arr → Dataset → Except E Distribution
  applyLikelihood : Posterior → Distribution → Except E Distribution
  distMean : Distribution → Except E Arr
  distStddev : Distribution → Except E Arr

/-- A Python-level error: either an `AttributeError` (attribute not yet
assigned) or an exception coming from the external library, carried intact. -/
inductive PyErr (E : Type)
  | attributeError
  | ext (e : E)

/-- The attributes of a `GPClassification` instance.  `dataset`,
`opt_posterior` and `history` are `none` until `fit` assigns them. -/
structure GPState where
  kernel : Kernel
  mean_fun : MeanFun
  key : Key
  prior : Prior
  likelihood : Option Likelihood
  object : Objective
  posterior : Posterior
  dataset : Option Dataset
  opt_posterior : Option Posterior
  history : Option History
deriving DecidableEq

/-- One call into the external library, with the arguments passed. -/
inductive Event
  | objectiveEval (o : Objective) (p : Posterior) (d : Dataset)
  | gpxFitCall (model : Posterior) (objective : Objective) (train_data : Dataset)
      (optim : Optimizer) (num_iters : Nat) (key : Key) (verbose : Bool)
  | predictCall (p : Posterior) (x : Arr) (train_data : Dataset)
  | likelihoodCall (p : Posterior) (d : Distribution)
  | meanCall (d : Distribution)
  | stddevCall (d : Distribution)

/-- Result of one method call: the external calls made (in order), the
instance state afterwards, and the returned value or propagated error. -/
structure MResult (E α : Type) where
  trace : List Event
  state : GPState
  result : Except (PyErr E) α

/-- `GPClassification.__init__`: stores the configuration objects, builds the
prior from mean function and kernel, and the posterior as `prior * likelihood`. -/
def initS {E : Type} (lib : GpxLib E) (kernel : Kernel) (meanfun : MeanFun)
    (likelihood : Option Likelihood) (object : Objective) (key : Key) : GPState :=
  let prior := lib.priorOf meanfun kernel
  { kernel := kernel
    mean_fun := meanfun
    key := key
    prior := prior
    likelihood := likelihood
    object := object
    posterior := lib.posteriorOf prior likelihood
    dataset := none
    opt_posterior := none
    history := none }

/-- `GPClassification.fit(x, y, optimizer)` (classification.py lines 76-99):

    self.dataset = gpx.Dataset(X=x.astype(jnp.float32), y=y.astype(jnp.float32))
    self.object(self.posterior, train_data=self.dataset)
    self.opt_posterior, self.history = gpx.fit(model=self.posterior,
        objective=self.object, train_data=self.dataset, optim=optimizer,
        num_iters=500, key=self.key, verbose=False)

The dataset assignment happens before the two fallible calls, so it survives
even when one of them raises. -/
def fitS {E : Type} (lib : GpxLib E) (s : GPState) (x y : Arr)
    (optimizer : Optimizer) : MResult E Unit :=
  let ds : Dataset := ⟨x.astypeF32, y.astypeF32⟩
  match lib.objectiveVal s.object s.posterior ds with
  | Except.error e =>
      ⟨[Event.objectiveEval s.object s.posterior ds],
       { s with dataset := some ds }, Except.error (PyErr.ext e)⟩
  | Except.ok _ =>
      match lib.gpxFit s.posterior s.object ds optimizer 500 s.key false with
      | Except.error e =>
          ⟨[Event.objectiveEval s.object s.posterior ds,
            Event.gpxFitCall s.posterior s.object ds optimizer 500 s.key false],
           { s with dataset := some ds }, Except.error (PyErr.ext e)⟩
      | Except.ok (p, h) =>
          ⟨[Event.objectiveEval s.object s.posterior ds,
            Event.gpxFitCall s.posterior s.object ds optimizer 500 s.key false],
           { s with dataset := some ds, opt_posterior := some p, history := some h },
           Except.ok ()⟩

/-- `GPClassification.predict(x)` (classification.py lines 101-119):

    latent_dist = self.opt_posterior.predict(x, train_data=self.dataset)
    predictive_dist = self.opt_posterior.likelihood(latent_dist)
    predictive_mean = predictive_dist.mean()
    predictive_std = predictive_dist.stddev()
    return predictive_dist, predictive_mean, predictive_std

Reading `self.opt_posterior` or `self.dataset` before `fit` has assigned them
is a Python `AttributeError`; no assignment to the instance occurs. -/
def predictS {E : Type} (lib : GpxLib E) (s : GPState) (x : Arr) :
    MResult E (Distribution × Arr × Arr) :=
  match s.opt_posterior, s.dataset with
  | some p, some d =>
      match lib.predictLatent p x d with
      | Except.error e =>
          ⟨[Event.predictCall p x d], s, Except.error (PyErr.ext e)⟩
      | Except.ok latent =>
          match lib.applyLikelihood p latent with
          | Except.error e =>
              ⟨[Event.predictCall p x d, Event.likelihoodCall p latent],
               s, Except.error (PyErr.ext e)⟩
          | Except.ok pd =>
              match lib.distMean pd with
              | Except.error e =>
                  ⟨[Event.predictCall p x d, Event.likelihoodCall p latent,
                    Event.meanCall pd], s, Except.error (PyErr.ext e)⟩
              | Except.ok m =>
                  match lib.distStddev pd with
                  | Except.error e =>
                      ⟨[Event.predictCall p x d, Event.likelihoodCall p latent,
                        Event.meanCall pd, Event.stddevCall pd],
                       s, Except.error (PyErr.ext e)⟩
                  | Except.ok sd =>
                      ⟨[Event.predictCall p x d, Event.likelihoodCall p latent,
                        Event.meanCall pd, Event.stddevCall pd],
                       s, Except.ok (pd, m, sd)⟩
  | _, _ => ⟨[], s, Except.error PyErr.attributeError⟩

/-! ### The missing-dependency path (classification.py lines 8-34)

When `import gpjax` fails with message `m`, the `except` branch rebinds
`gpx`, `RBF`, `Zero` and `LogPosteriorDensity` to functions that raise an
`ImportError` embedding `m`.  Each stub is modelled as a fallible value. -/

/-- The f-string `f'{name} requires gpjax, but got "{m}" when importing'`
used by every stub (the `gpx` stub uses the name `gpjax`). -/
def stubMsg (name m : String) : String :=
  name ++ " requires gpjax, but got \"" ++ m ++ "\" when importing"

/-- The stub bound to `gpx` (its message names `gpjax`). -/
def stubGpx (m : String) : Except String Unit :=
  Except.error (stubMsg "gpjax" m)

/-- The stub bound to `RBF`. -/
def stubRBF (m : String) : Except String Kernel :=
  Except.error (stubMsg "RBF" m)

/-- The stub bound to `Zero`. -/
def stubZero (m : String) : Except String MeanFun :=
  Except.error (stubMsg "Zero" m)

/-- The stub bound to `LogPosteriorDensity`. -/
def stubLogPosteriorDensity (m : String) : Except String Objective :=
  Except.error (stubMsg "LogPosteriorDensity" m)

/-- `sub` occurs verbatim inside `msg`. -/
def containsText (msg sub : String) : Prop :=
  ∃ pre suf, msg = pre ++ sub ++ suf

/-- Executing the rest of the module body when `import gpjax` failed with
message `m`.  The `class GPClassification` statement runs `def __init__` with
default argument expressions `kernel=RBF()`, `meanfun=Zero()`,
`object=LogPosteriorDensity(negative=True)`; Python evaluates these at
function definition time, i.e. during the class statement at module load,
left to right. -/
def moduleLoadAbsent (m : String) : Except String Unit := do
  let _ ← stubRBF m
  let _ ← stubZero m
  let _ ← stubLogPosteriorDensity m
  pure ()

/-- The documented gpjax shape contract the wrapper relies on: the latent
distribution predicted at `x`, pushed through the likelihood, has a standard
deviation whose leading dimension is the number of rows of `x`. -/
def ShapeContract {E : Type} (lib : GpxLib E) : Prop :=
  ∀ p x d latent pd sd,
    lib.predictLatent p x d = Except.ok latent →
    lib.applyLikelihood p latent = Except.ok pd →
    lib.distStddev pd = Except.ok sd →
    sd.shape.head? = x.shape.head?

/-- A concrete oracle, used to run the wrapper on explicit inputs. -/
def libW : GpxLib Unit where
  priorOf := fun _ _ => ⟨0⟩
  posteriorOf := fun _ _ => ⟨1⟩
  objectiveVal := fun _ _ _ => Except.ok ⟨0⟩
  gpxFit := fun _ _ _ _ _ _ _ => Except.ok (⟨7⟩, ⟨8⟩)
  predictLatent := fun _ x _ => Except.ok ⟨0, x.shape⟩
  applyLikelihood := fun _ d => Except.ok d
  distMean := fun d => Except.ok ⟨1, DType.float32, d.shape⟩
  distStddev := fun d => Except.ok ⟨2, DType.float32, d.shape⟩

/-- A concrete freshly constructed instance. -/
def sW : GPState := initS libW ⟨0⟩ ⟨0⟩ (some ⟨0⟩) ⟨0⟩ ⟨123⟩

/-- A concrete 4-by-1 float64 training feature matrix. -/
def xW : Arr := ⟨10, DType.float64, [4, 1]⟩

/-- A concrete 4-by-1 int32 training label vector. -/
def yW : Arr := ⟨11, DType.int32, [4, 1]⟩

/-- A concrete 3-by-1 prediction input matrix. -/
def xpW : Arr := ⟨12, DType.float32, [3, 1]⟩

/-- A concrete optimizer argument. -/
def optW : Optimizer := ⟨0⟩

end Evox

namespace TestScript

/-!
The scratch snippet of `tests/test.py` (lines 79-93).  Every array entry is an
exact small integer, so jax arrays are embedded as nested lists over `Int`.
-/

/-- `f(x) = jnp.array([[x, x+1, x+2], [x+3, x+4, x+5], [x+6, x+7, x+8],
[x+9, x+10, x+11]])`, a 4-by-3 array. -/
def f (x : Int) : List (List Int) :=
  [[x, x + 1, x + 2], [x + 3, x + 4, x + 5], [x + 6, x + 7, x + 8],
   [x + 9, x + 10, x + 11]]

/-- The argument of the vmapped call, `jnp.array([0, 1, 2])`. -/
def vmapInputs : List Int := [0, 1, 2]

/-- `result = jax.vmap(f, in_axes=0, out_axes=0)(jnp.array([0, 1, 2]))`:
stacking `f` over the leading axis of the input. -/
def vmapResult : List (List (List Int)) := vmapInputs.map f

/-- `result[:, i, :].flatten()`: take row `i` of every stacked plane and
concatenate the rows. -/
def sliceFlatten (res : List (List (List Int))) (i : Nat) : List Int :=
  (res.map fun plane => plane.getD i []).flatten

/-- The loop of `rr()`:

    re_res = jnp.zeros(shape=(4,9))
    for i in range(result.shape[1]):
        re_res = re_res.at[i].set(result[:,i,:].flatten())

`result.shape[1]` is the common length of the stacked planes. -/
def re_res : List (List Int) :=
  (List.range (vmapResult.headD []).length).foldl
    (fun acc i => acc.set i (sliceFlatten vmapResult i))
    (List.replicate 4 (List.replicate 9 0))

end TestScript

/-! ## Theorems -/

/-- C10: in the scratch snippet of the test script, `f x` is the 4-by-3 array
with entry `x + 3*i + k` at row `i`, column `k`; the vmapped result over
inputs `[0, 1, 2]` has shape `(3, 4, 3)`; and the loop fills every row `i` of
the 4-by-9 array `re_res` with the flattening of `result[:, i, :]`, so that
`re_res[i][3*j + k] = j + 3*i + k` for all `j < 3`, `k < 3`. -/
theorem c10_scratch_snippet (x : Int) (i : Fin 4) (j k : Fin 3) :
    ((TestScript.f x).getD i []).getD k 0 = x + 3 * (i.val : Int) + (k.val : Int) ∧
    TestScript.vmapResult.length = 3 ∧
    TestScript.vmapResult.map List.length = [4, 4, 4] ∧
    TestScript.vmapResult.flatten.map List.length = List.replicate 12 3 ∧
    TestScript.re_res.length = 4 ∧
    (TestScript.re_res.getD i []).length = 9 ∧
    (TestScript.re_res.getD i []).getD (3 * j.val + k.val) 0
      = (j.val : Int) + 3 * (i.val : Int) + (k.val : Int) := by
  refine ⟨?_, by decide, by decide, by decide, by decide, ?_, ?_⟩
  · fin_cases i <;> fin_cases k <;> simp [TestScript.f] <;> ring
  · fin_cases i <;> decide
  · fin_cases i <;> fin_cases j <;> fin_cases k <;> decide

namespace Evox

/-- C1: with gpjax absent, each stub raises an error whose message contains
the original import failure text — but the failure is NOT deferred to first
use: the `class` statement evaluates the `__init__` default arguments
(`RBF()` first) at module load, so loading the module itself already raises
the stub error.  This theorem records both facts at every failure text `m`. -/
theorem c1_stub_errors_and_load_failure (m : String) :
    moduleLoadAbsent m = Except.error (stubMsg "RBF" m) ∧
    stubGpx m = Except.error (stubMsg "gpjax" m) ∧
    stubRBF m = Except.error (stubMsg "RBF" m) ∧
    stubZero m = Except.error (stubMsg "Zero" m) ∧
    stubLogPosteriorDensity m = Except.error (stubMsg "LogPosteriorDensity" m) ∧
    containsText (stubMsg "gpjax" m) m ∧
    containsText (stubMsg "RBF" m) m ∧
    containsText (stubMsg "Zero" m) m ∧
    containsText (stubMsg "LogPosteriorDensity" m) m := by
  refine ⟨rfl, rfl, rfl, rfl, rfl, ?_, ?_, ?_, ?_⟩ <;>
    exact ⟨_ ++ " requires gpjax, but got \"", "\" when importing", rfl⟩

/-- C2: every call to `fit` stores in `self.dataset` a dataset built freshly
from the float32 casts of the two arguments — whatever the previous state
held — and the cast really forces dtype float32. -/
theorem c2_fit_casts_and_builds_dataset {E : Type} (lib : GpxLib E)
    (s : GPState) (x y : Arr) (opt : Optimizer) :
    (fitS lib s x y opt).state.dataset = some ⟨x.astypeF32, y.astypeF32⟩ ∧
    x.astypeF32.dtype = DType.float32 ∧ y.astypeF32.dtype = DType.float32 := by
  refine ⟨?_, rfl, rfl⟩
  unfold fitS
  dsimp only
  split
  · rfl
  · split <;> rfl

/-- C9: attributes are only written at construction or fit time: `fit` leaves
every construction-time attribute (kernel, mean_fun, key, prior, likelihood,
object, posterior) unchanged, and `predict` leaves the whole instance state
unchanged. -/
theorem c9_attribute_frame {E : Type} (lib : GpxLib E) (s : GPState)
    (x y xp : Arr) (opt : Optimizer) :
    ((fitS lib s x y opt).state.kernel = s.kernel ∧
     (fitS lib s x y opt).state.mean_fun = s.mean_fun ∧
     (fitS lib s x y opt).state.key = s.key ∧
     (fitS lib s x y opt).state.prior = s.prior ∧
     (fitS lib s x y opt).state.likelihood = s.likelihood ∧
     (fitS lib s x y opt).state.object = s.object ∧
     (fitS lib s x y opt).state.posterior = s.posterior) ∧
    (predictS lib s xp).state = s := by
  constructor
  · unfold fitS
    dsimp only
    split
    · exact ⟨rfl, rfl, rfl, rfl, rfl, rfl, rfl⟩
    · split <;> exact ⟨rfl, rfl, rfl, rfl, rfl, rfl, rfl⟩
  · unfold predictS
    split
    · split
      · rfl
      · split
        · rfl
        · split
          · rfl
          · split <;> rfl
    · rfl

/-- C6: during every `fit` call the objective is evaluated exactly once, on
the unoptimized posterior and the fresh training dataset, before the external
`gpx.fit` is invoked (the trace is either just that evaluation, or that
evaluation followed by the `gpx.fit` call); and its returned value is
discarded: replacing it by any other value changes nothing in the trace, the
state, or the result. -/
theorem c6_objective_once_value_discarded {E : Type} (lib : GpxLib E)
    (s : GPState) (x y : Arr) (opt : Optimizer) (v1 v2 : ObjVal) :
    ((fitS lib s x y opt).trace
        = [Event.objectiveEval s.object s.posterior ⟨x.astypeF32, y.astypeF32⟩] ∨
      (fitS lib s x y opt).trace
        = [Event.objectiveEval s.object s.posterior ⟨x.astypeF32, y.astypeF32⟩,
           Event.gpxFitCall s.posterior s.object ⟨x.astypeF32, y.astypeF32⟩
             opt 500 s.key false]) ∧
    fitS { lib with objectiveVal := fun _ _ _ => Except.ok v1 } s x y opt
      = fitS { lib with objectiveVal := fun _ _ _ => Except.ok v2 } s x y opt := by
  constructor
  · unfold fitS
    dsimp only
    split
    · exact Or.inl rfl
    · split <;> exact Or.inr rfl
  · rfl

/-- C3: `fit` delegates the optimization to `gpx.fit`, called on the stored
posterior, objective, the fresh dataset and the caller's optimizer with the
iteration count hard-coded to 500 (for every optimizer argument), and stores
the two results as `opt_posterior` and `history`. -/
theorem c3_fit_delegates_500 {E : Type} (lib : GpxLib E) (s : GPState)
    (x y : Arr) (opt : Optimizer) (v : ObjVal) (p : Posterior) (hist : History)
    (hob : lib.objectiveVal s.object s.posterior ⟨x.astypeF32, y.astypeF32⟩
        = Except.ok v)
    (hfit : lib.gpxFit s.posterior s.object ⟨x.astypeF32, y.astypeF32⟩
        opt 500 s.key false = Except.ok (p, hist)) :
    (fitS lib s x y opt).state.opt_posterior = some p ∧
    (fitS lib s x y opt).state.history = some hist ∧
    (fitS lib s x y opt).trace
      = [Event.objectiveEval s.object s.posterior ⟨x.astypeF32, y.astypeF32⟩,
         Event.gpxFitCall s.posterior s.object ⟨x.astypeF32, y.astypeF32⟩
           opt 500 s.key false] := by
  unfold fitS
  dsimp only
  rw [hob, hfit]
  exact ⟨rfl, rfl, rfl⟩

/-- Witness for C3, at the concrete oracle `libW` and instance `sW`. -/
theorem c3_fit_delegates_500_witness :
    (fitS libW sW xW yW optW).state.opt_posterior = some ⟨7⟩ ∧
    (fitS libW sW xW yW optW).state.history = some ⟨8⟩ ∧
    (fitS libW sW xW yW optW).trace
      = [Event.objectiveEval sW.object sW.posterior ⟨xW.astypeF32, yW.astypeF32⟩,
         Event.gpxFitCall sW.posterior sW.object ⟨xW.astypeF32, yW.astypeF32⟩
           optW 500 sW.key false] :=
  c3_fit_delegates_500 libW sW xW yW optW ⟨0⟩ ⟨7⟩ ⟨8⟩ rfl rfl

/-- C4: `predict(x)` returns the three-tuple (predictive distribution,
predictive mean, predictive standard deviation), obtained by calling the
optimized posterior's predict on `x` with the stored dataset, pushing the
latent distribution through the posterior's likelihood, and extracting mean
and standard deviation from the resulting distribution; the instance is left
unchanged. -/
theorem c4_predict_three_tuple {E : Type} (lib : GpxLib E) (s : GPState)
    (x : Arr) (p : Posterior) (d : Dataset) (latent pd : Distribution)
    (m sd : Arr)
    (hp : s.opt_posterior = some p) (hd : s.dataset = some d)
    (h1 : lib.predictLatent p x d = Except.ok latent)
    (h2 : lib.applyLikelihood p latent = Except.ok pd)
    (h3 : lib.distMean pd = Except.ok m)
    (h4 : lib.distStddev pd = Except.ok sd) :
    (predictS lib s x).result = Except.ok (pd, m, sd) ∧
    (predictS lib s x).trace
      = [Event.predictCall p x d, Event.likelihoodCall p latent,
         Event.meanCall pd, Event.stddevCall pd] := by
  simp only [predictS, hp, hd, h1, h2, h3, h4]
  exact ⟨trivial, trivial⟩

/-- Witness for C4: predicting at the concrete `xpW` after the concrete fit. -/
theorem c4_predict_three_tuple_witness :
    (predictS libW (fitS libW sW xW yW optW).state xpW).result
      = Except.ok (⟨0, [3, 1]⟩, ⟨1, DType.float32, [3, 1]⟩,
          ⟨2, DType.float32, [3, 1]⟩) ∧
    (predictS libW (fitS libW sW xW yW optW).state xpW).trace
      = [Event.predictCall ⟨7⟩ xpW ⟨xW.astypeF32, yW.astypeF32⟩,
         Event.likelihoodCall ⟨7⟩ ⟨0, [3, 1]⟩,
         Event.meanCall ⟨0, [3, 1]⟩, Event.stddevCall ⟨0, [3, 1]⟩] :=
  c4_predict_three_tuple libW (fitS libW sW xW yW optW).state xpW ⟨7⟩
    ⟨xW.astypeF32, yW.astypeF32⟩ ⟨0, [3, 1]⟩ ⟨0, [3, 1]⟩
    ⟨1, DType.float32, [3, 1]⟩ ⟨2, DType.float32, [3, 1]⟩
    rfl rfl rfl rfl rfl rfl

/-- C7: apart from the missing-dependency stubs, `fit` and `predict` contain
no error handling.  `fit` fails exactly when the objective evaluation or the
external `gpx.fit` fails, and then its result is that very error, unchanged;
`predict` on a fitted instance fails exactly when one of the four external
calls (posterior predict, likelihood, mean, stddev) fails, again carrying the
external error unchanged. -/
theorem c7_errors_propagate_unchanged {E : Type} (lib : GpxLib E)
    (s : GPState) (x y xp : Arr) (opt : Optimizer) (p : Posterior)
    (d : Dataset) (e : E) :
    ((fitS lib s x y opt).result = Except.error (PyErr.ext e) ↔
      lib.objectiveVal s.object s.posterior ⟨x.astypeF32, y.astypeF32⟩
          = Except.error e ∨
      ((∃ v, lib.objectiveVal s.object s.posterior ⟨x.astypeF32, y.astypeF32⟩
            = Except.ok v) ∧
        lib.gpxFit s.posterior s.object ⟨x.astypeF32, y.astypeF32⟩
            opt 500 s.key false = Except.error e)) ∧
    ((predictS lib { s with opt_posterior := some p, dataset := some d }
          xp).result = Except.error (PyErr.ext e) ↔
      lib.predictLatent p xp d = Except.error e ∨
      ∃ latent, lib.predictLatent p xp d = Except.ok latent ∧
        (lib.applyLikelihood p latent = Except.error e ∨
         ∃ pd, lib.applyLikelihood p latent = Except.ok pd ∧
           (lib.distMean pd = Except.error e ∨
            ∃ m, lib.distMean pd = Except.ok m ∧
              lib.distStddev pd = Except.error e))) := by
  constructor
  · unfold fitS
    dsimp only
    split
    · rename_i e' heq
      simp [heq]
    · rename_i v heq
      split
      · rename_i e' heq2
        simp [heq, heq2]
      · rename_i ph heq2
        simp [heq, heq2]
  · unfold predictS
    dsimp only
    split
    · rename_i e' heq
      simp [heq]
    · rename_i latent heq
      split
      · rename_i e' heq2
        simp [heq, heq2]
      · rename_i pd heq2
        split
        · rename_i e' heq3
          simp [heq, heq2, heq3]
        · rename_i m heq3
          split
          · rename_i e' heq4
            simp [heq, heq2, heq3, heq4]
          · rename_i sd heq4
            simp [heq, heq2, heq3, heq4]

/-- The concrete oracle `libW` satisfies the gpjax shape contract. -/
theorem libW_shape_contract : ShapeContract libW := by
  intro p x d latent pd sd h1 h2 h3
  simp only [libW] at h1 h2 h3
  cases h1
  cases h2
  cases h3
  rfl

/-- C5: with the dependency present (an oracle satisfying gpjax's documented
shape contract), every successful `fit(x, y, optimizer)` followed by a
successful `predict(x_new)` returns a standard deviation array whose leading
dimension equals the leading dimension of the prediction input `x_new`. -/
theorem c5_predict_std_leading_dim {E : Type} (lib : GpxLib E) (s : GPState)
    (x y xnew : Arr) (opt : Optimizer) (pd : Distribution) (m sd : Arr)
    (hc : ShapeContract lib)
    (hfit : (fitS lib s x y opt).result = Except.ok ())
    (hpred : (predictS lib (fitS lib s x y opt).state xnew).result
        = Except.ok (pd, m, sd)) :
    sd.shape.head? = xnew.shape.head? := by
  generalize (fitS lib s x y opt).state = s2 at hpred
  unfold predictS at hpred
  split at hpred
  · rename_i p d hP hD
    split at hpred
    · simp at hpred
    · rename_i latent heq1
      split at hpred
      · simp at hpred
      · rename_i pd2 heq2
        split at hpred
        · simp at hpred
        · rename_i m2 heq3
          split at hpred
          · simp at hpred
          · rename_i sd2 heq4
            simp only [Except.ok.injEq, Prod.mk.injEq] at hpred
            obtain ⟨hpd, hm, hsd⟩ := hpred
            subst hsd
            exact hc p xnew d latent pd2 sd2 heq1 heq2 heq4
  · simp at hpred

/-- Witness for C5: the concrete run with `libW`; `xpW` has 3 rows and the
returned standard deviation's leading dimension is 3 as well. -/
theorem c5_predict_std_leading_dim_witness :
    (⟨2, DType.float32, [3, 1]⟩ : Arr).shape.head? = xpW.shape.head? :=
  c5_predict_std_leading_dim libW sW xW yW xpW optW ⟨0, [3, 1]⟩
    ⟨1, DType.float32, [3, 1]⟩ ⟨2, DType.float32, [3, 1]⟩
    libW_shape_contract rfl rfl

end Evox
